import Mathlib

/-!
Shallow embedding of `garmin_exercises_collector.py` (class
`GarminExercisesCollector`): the merge/reconciliation engine that turns the
Garmin catalog documents (Exercises, Yoga, Pilates, Mobility), the per-exercise
detail documents, the equipment mapping and the translation table into four
normalized row tables.

Modelling conventions:
* A Python `dict` used as a row is modelled as a function `ColKey → Option Value`
  (a partial map).  The set of keys ever used for a row in the source is closed:
  the fixed fields plus `f"MUSCLE_{m}"` and `f"EQUIPMENT_{e}"`, so the key space
  is the inductive `ColKey`.  Key insertion order (which in the source only
  influences spreadsheet column order) is not modelled; no claim depends on it.
* Network calls are oracles: `detail : String → String → Except Unit DetailedData`
  models `fetch_json` on the detail URL (`.error` = the call raised), and
  `probe : String → Except Unit Nat` models `requests.head(url).status_code`
  (`.error` = `requests.head` raised).  A raise inside the per-exercise `try`
  block transfers control to the `except` branch, which is modelled by
  `Except Row Row` whose error payload carries the row as built at the raise
  point (the `except` branch then overwrites the detail fields in place).
* `self.all_muscles` / `self.all_equipment` are Python sets; they are modelled
  as duplicate-free lists in first-insertion order.  Set iteration order is
  only used to back-fill zero columns, where order is irrelevant.
* The pandas stage (`pd.DataFrame(rows)` followed by the per-muscle
  `df[col] = 0` / `fillna(0)` loop) has, per row, exactly the effect of
  `backfill`: a muscle column absent from the row becomes 0, an existing value
  is kept.
-/

/-- Column keys of a row dict.  The source uses exactly the fixed string keys
plus the two prefixed families `f"MUSCLE_{m}"` and `f"EQUIPMENT_{e}"`; the
constructors keep the families disjoint, as the distinct prefixes do in the
source. -/
inductive ColKey where
  | CATEGORY_GARMIN : ColKey
  | NAME_GARMIN : ColKey
  | Name : ColKey
  | DETAILED_INFO : ColKey
  | URL : ColKey
  | DIFFICULTY : ColKey
  | DESCRIPTION : ColKey
  | IMAGE : ColKey
  | MUSCLE : String → ColKey
  | EQUIPMENT : String → ColKey
deriving DecidableEq, Repr

/-- Scalar cell values appearing in rows: strings, the muscle/equipment scores,
and the `DETAILED_INFO` boolean. -/
inductive Value where
  | str : String → Value
  | nat : Nat → Value
  | bool : Bool → Value
deriving DecidableEq, Repr

/-- A row: a Python dict from column key to scalar, as a partial map. -/
def Row : Type := ColKey → Option Value

/-- The empty row `{}`. -/
def Row.empty : Row := fun _ => none

/-- `row[k] = v` (dict assignment). -/
def Row.set (r : Row) (k : ColKey) (v : Value) : Row :=
  fun k' => if k' = k then some v else r k'

/-- `k in row` (dict membership). -/
def Row.holds (r : Row) (k : ColKey) : Bool :=
  (r k).isSome

/-- Read a string value, as `row['CATEGORY_GARMIN']` etc. (the source only
reads these keys when they hold strings). -/
def Row.getStr (r : Row) (k : ColKey) : String :=
  match r k with
  | some (Value.str s) => s
  | _ => ""

/-- Python truthiness of a cell value (only string cells are tested in the
source, via `not row['IMAGE']`). -/
def Value.truthy : Value → Bool
  | Value.str s => !(s == "")
  | Value.nat n => !(n == 0)
  | Value.bool b => b

theorem Row.set_same (r : Row) (k : ColKey) (v : Value) :
    (r.set k v) k = some v := by
  simp [Row.set]

theorem Row.set_other (r : Row) (k k' : ColKey) (v : Value) (h : k' ≠ k) :
    (r.set k v) k' = r k' := by
  simp [Row.set, h]

/-- Association-list lookup, modelling `d[k]` / `k in d` on a Python dict built
by successive assignments. -/
def alistGet {β : Type} (m : List (String × β)) (k : String) : Option β :=
  (m.find? (fun p => p.1 == k)).map (fun p => p.2)

/-- Dict assignment `d[k] = v` on an association list: overwrite in place if
the key exists, else append. -/
def alistSet {β : Type} (m : List (String × β)) (k : String) (v : β) :
    List (String × β) :=
  if m.any (fun p => p.1 == k) then
    m.map (fun p => if p.1 == k then (k, v) else p)
  else m ++ [(k, v)]

/-- `s.update(xs)` on a Python set modelled as a duplicate-free list in
first-insertion order. -/
def setUpdate (s : List String) (xs : List String) : List String :=
  xs.foldl (fun acc x => if x ∈ acc then acc else acc ++ [x]) s

/-! ### Translation Resolver (`fetch_translations` result, `get_exercise_name`) -/

/-- The parsed translation table (`self.translations`). -/
def Translations : Type := List (String × String)

/-- `get_exercise_name`: look up `f"{category}_{name}"`; raise if missing. -/
def get_exercise_name (tr : Translations) (category name : String) :
    Except String String :=
  let key := category ++ "_" ++ name
  match alistGet tr key with
  | none => Except.error ("Translation not found for " ++ key)
  | some v => Except.ok v

/-- The caller-side `try/except` around `get_exercise_name` shared by every
category builder: on a miss the display name falls back to
`f"{category} {exercise_name}"`. -/
def resolveName (tr : Translations) (category name : String) : String :=
  match get_exercise_name tr category name with
  | Except.ok v => v
  | Except.error _ => category ++ " " ++ name

/-! ### Muscle Annotator (the primary/secondary loops shared by the builders) -/

/-- The primary-muscle loop: `row[f"MUSCLE_{muscle}"] = 1` for each muscle. -/
def addPrimaries (r : Row) (ms : List String) : Row :=
  ms.foldl (fun r m => r.set (ColKey.MUSCLE m) (Value.nat 1)) r

/-- The secondary-muscle loop: `row[f"MUSCLE_{muscle}"] = 2` only when the key
is not already in the row (`# Avoid overwriting primary`). -/
def addSecondaries (r : Row) (ms : List String) : Row :=
  ms.foldl
    (fun r m =>
      if (r (ColKey.MUSCLE m)).isSome then r
      else r.set (ColKey.MUSCLE m) (Value.nat 2))
    r

/-- The full muscle block of a builder: guarded on key presence
(`if 'primaryMuscles' in data`), updating `self.all_muscles` and the row;
primaries strictly before secondaries. -/
def trackMuscles (st : List String) (r : Row)
    (prim sec : Option (List String)) : List String × Row :=
  let p : List String × Row :=
    match prim with
    | some ps => (setUpdate st ps, addPrimaries r ps)
    | none => (st, r)
  match sec with
  | some ss => (setUpdate p.1 ss, addSecondaries p.2 ss)
  | none => p

/-! ### Detail Resolver inputs and the per-exercise `try` block -/

/-- One element of the detail document's `videos` list. -/
structure VideoEntry where
  thumbnail : Option String
deriving DecidableEq, Repr

/-- A fetched per-exercise detail document; every field optionally absent. -/
structure DetailedData where
  difficulty : Option String
  description : Option String
  heroImage : Option String
  videos : Option (List VideoEntry)
  primaryMuscles : Option (List String)
  secondaryMuscles : Option (List String)
deriving DecidableEq, Repr

/-- One entry of a base catalog document
(`categories[cat].exercises[name]`). -/
structure ExerciseEntry where
  primaryMuscles : Option (List String)
  secondaryMuscles : Option (List String)
deriving DecidableEq, Repr

/-- A base catalog document: categories in iteration order, each with its
exercises in iteration order. -/
def Catalog : Type := List (String × List (String × ExerciseEntry))

/-- The network oracles and the translation table available to the builders. -/
structure Env where
  translations : Translations
  detail : String → String → Except Unit DetailedData
  probe : String → Except Unit Nat

/-- `f"{self.detailed_page_based_url}{category}/{exercise_name}"`. -/
def detailPageUrl (category name : String) : String :=
  "https://connect.garmin.com/modern/exercises/" ++ category ++ "/" ++ name

/-- `requests.head(image_url).status_code == 200`, setting `row['IMAGE']` on
success; a raising `head` escapes to the `except` branch carrying the current
row. -/
def probeSet (probe : String → Except Unit Nat) (url : String) (r : Row) :
    Except Row Row :=
  match probe url with
  | Except.error _ => Except.error r
  | Except.ok code =>
      Except.ok (if code == 200 then r.set ColKey.IMAGE (Value.str url) else r)

/-- `if 'heroImage' in detailed_data and detailed_data['heroImage']:` — probe
the hero image when the field is present and truthy. -/
def imageHero (probe : String → Except Unit Nat) (d : DetailedData) (r : Row) :
    Except Row Row :=
  match d.heroImage with
  | some h =>
      if h == "" then Except.ok r
      else probeSet probe ("https://connect.garmin.com" ++ h) r
  | none => Except.ok r

/-- `if not row['IMAGE'] and detailed_data.get('videos') and
detailed_data['videos'][0].get('thumbnail'):` — probe the first video's
thumbnail when the image field is still falsy. -/
def imageThumb (probe : String → Except Unit Nat) (d : DetailedData) (r : Row) :
    Except Row Row :=
  if (match r ColKey.IMAGE with
      | some v => v.truthy
      | none => false) then Except.ok r
  else
    match d.videos with
    | some (v :: _) =>
        match v.thumbnail with
        | some t =>
            if t == "" then Except.ok r
            else probeSet probe ("https://connectvideo.garmin.com" ++ t) r
        | none => Except.ok r
    | _ => Except.ok r

/-- The image block of the `try` branch: initialize `row['IMAGE'] = ""`, try
the hero image, then (if the field is still falsy) the first video's
thumbnail. -/
def imageStep (probe : String → Except Unit Nat) (d : DetailedData) (r : Row) :
    Except Row Row :=
  match imageHero probe d (r.set ColKey.IMAGE (Value.str "")) with
  | Except.error r => Except.error r
  | Except.ok r => imageThumb probe d r

/-- The shared head of the `try` branch once `fetch_json` succeeded: set
`DETAILED_INFO`, `URL`, `DIFFICULTY`, `DESCRIPTION`, then run the image
block. -/
def detailTry (probe : String → Except Unit Nat) (pageUrl : String)
    (d : DetailedData) (r : Row) : Except Row Row :=
  let r := r.set ColKey.DETAILED_INFO (Value.bool true)
  let r := r.set ColKey.URL (Value.str pageUrl)
  let r := r.set ColKey.DIFFICULTY (Value.str (d.difficulty.getD ""))
  let r := r.set ColKey.DESCRIPTION (Value.str (d.description.getD ""))
  imageStep probe d r

/-- The shared `except` branch: overwrite the five detail fields with the
not-found sentinel. -/
def detailExcept (r : Row) : Row :=
  ((((r.set ColKey.DETAILED_INFO (Value.bool false)).set
      ColKey.URL (Value.str "")).set
      ColKey.DIFFICULTY (Value.str "")).set
      ColKey.DESCRIPTION (Value.str "")).set
      ColKey.IMAGE (Value.str "")

/-- The identity fields and resolved display name every builder writes
first. -/
def baseRow (tr : Translations) (category name : String) : Row :=
  ((Row.empty.set ColKey.CATEGORY_GARMIN (Value.str category)).set
      ColKey.NAME_GARMIN (Value.str name)).set
      ColKey.Name (Value.str (resolveName tr category name))

/-- The whole detail `try/except` as it appears in `process_pilates_data`,
`process_mobility_data` and `process_yoga_data` (no muscle code inside): fetch
the detail document and run the `try` branch; any raise lands in the `except`
branch on the row as built at the raise point. -/
def detailBlock (env : Env) (category name : String) (r : Row) : Row :=
  match env.detail category name with
  | Except.error _ => detailExcept r
  | Except.ok d =>
      match detailTry env.probe (detailPageUrl category name) d r with
      | Except.ok r => r
      | Except.error r => detailExcept r

/-! ### Category Dataset Builders -/

/-- `process_exercises_data`: per-exercise body.  On a successful `fetch_json`
the `try` branch records the detail fields and sources muscles from the detail
document; any raise (fetch or a probe) lands in the `except` branch, which
overwrites the detail fields and sources muscles from the catalog entry. -/
def exercisesRow (env : Env) (st : List String) (category name : String)
    (entry : ExerciseEntry) : List String × Row :=
  let r := baseRow env.translations category name
  match env.detail category name with
  | Except.error _ =>
      trackMuscles st (detailExcept r) entry.primaryMuscles entry.secondaryMuscles
  | Except.ok d =>
      match detailTry env.probe (detailPageUrl category name) d r with
      | Except.ok r =>
          trackMuscles st r d.primaryMuscles d.secondaryMuscles
      | Except.error r =>
          trackMuscles st (detailExcept r) entry.primaryMuscles entry.secondaryMuscles

/-- Per-exercise body shared verbatim by `process_pilates_data` and
`process_mobility_data`: detail `try/except` first, then muscles always from
the catalog entry (`# Primary muscles from pilates.json` /
`# ... from mobility.json`). -/
def simpleRow (env : Env) (st : List String) (category name : String)
    (entry : ExerciseEntry) : List String × Row :=
  let r := detailBlock env category name (baseRow env.translations category name)
  trackMuscles st r entry.primaryMuscles entry.secondaryMuscles

/-- The double loop over `data['categories']` with the
`# DEBUG: Limit to 10 rows for testing` guard: the inner `break` stops a
category once `len(rows) >= 10`; the outer loop continues but every later
iteration hits the same guard immediately, so the fold shape below is
equivalent. -/
def catalogLoop
    (step : List String → String → String → ExerciseEntry → List String × Row)
    (catalog : Catalog) (st : List String) : List String × List Row :=
  catalog.foldl
    (fun acc cat =>
      cat.2.foldl
        (fun acc ex =>
          if acc.2.length ≥ 10 then acc
          else
            let p := step acc.1 cat.1 ex.1 ex.2
            (p.1, acc.2 ++ [p.2]))
        acc)
    (st, [])

/-- The per-row effect of the muscle zero-fill stage
(`pd.DataFrame(rows)` then, for every muscle in `self.all_muscles`,
`df[col] = 0` when the column is absent, else `df[col].fillna(0)`):
a muscle column absent from a row becomes 0, an existing value is kept. -/
def backfill (st : List String) (r : Row) : Row :=
  st.foldl
    (fun r m =>
      if (r (ColKey.MUSCLE m)).isSome then r
      else r.set (ColKey.MUSCLE m) (Value.nat 0))
    r

/-- The muscle zero-fill applied to the whole table. -/
def finalize (st : List String) (rows : List Row) : List Row :=
  rows.map (backfill st)

/-- `process_pilates_data` and `process_mobility_data` (identical code over
their respective catalog documents): loop, then zero-fill with the
`self.all_muscles` value at that point. -/
def processSimpleData (env : Env) (catalog : Catalog) (st : List String) :
    List String × List Row :=
  let p := catalogLoop (simpleRow env) catalog st
  (p.1, finalize p.1 p.2)

/-! ### Equipment Joiner (`process_equipment_data`) -/

/-- One entry of `exercisesInCategory` in the equipment document;
`equipmentKeys` read with `.get('equipmentKeys', [])`. -/
structure EquipExercise where
  exerciseKey : String
  equipmentKeys : List String
deriving DecidableEq, Repr

/-- One category block of the equipment document. -/
structure EquipCategory where
  exerciseCategoryKey : String
  exercisesInCategory : List EquipExercise
deriving DecidableEq, Repr

/-- The first loop of `process_equipment_data`: accumulate
`self.all_equipment` and build `equipment_mapping` keyed by
`f"{exerciseCategoryKey}_{exerciseKey}"` (dict assignment: a repeated key is
overwritten). -/
def equipScan (doc : List EquipCategory) (eq0 : List String) :
    List String × List (String × List String) :=
  doc.foldl
    (fun acc cat =>
      cat.exercisesInCategory.foldl
        (fun acc ex =>
          (setUpdate acc.1 ex.equipmentKeys,
           alistSet acc.2 (cat.exerciseCategoryKey ++ "_" ++ ex.exerciseKey)
             ex.equipmentKeys))
        acc)
    (eq0, [])

/-- Insertion into a ≤-sorted list of strings. -/
def insertSorted (x : String) : List String → List String
  | [] => [x]
  | y :: ys => if x ≤ y then x :: y :: ys else y :: insertSorted x ys

/-- `sorted(self.all_equipment)` (only the resulting column order depends on
the sort; no cell value does). -/
def sortStrings (l : List String) : List String :=
  l.foldr insertSorted []

/-- The column-initialization loop of `process_equipment_data` (per row):
`self.df_exercises[f"EQUIPMENT_{equipment}"] = 0` for every equipment in
`sorted(self.all_equipment)`. -/
def equipZeroPass (eqSt : List String) (r : Row) : Row :=
  (sortStrings eqSt).foldl
    (fun r e => r.set (ColKey.EQUIPMENT e) (Value.nat 0)) r

/-- The fill loop of `process_equipment_data` (per row): if `key` is in
`equipment_mapping`, set the mapped equipment columns to 1. -/
def equipOnesPass (mapping : List (String × List String)) (key : String)
    (r : Row) : Row :=
  match alistGet mapping key with
  | some eqs => eqs.foldl (fun r e => r.set (ColKey.EQUIPMENT e) (Value.nat 1)) r
  | none => r

/-- The per-row effect of the second half of `process_equipment_data`: every
`EQUIPMENT_{e}` column for `e` in `sorted(all_equipment)` is initialized to 0,
then the equipment mapped to `f"{row['CATEGORY_GARMIN']}_{row['NAME_GARMIN']}"`
is set to 1. -/
def applyRowEquip (eqSt : List String) (mapping : List (String × List String))
    (r : Row) : Row :=
  let r := equipZeroPass eqSt r
  equipOnesPass mapping
    (r.getStr ColKey.CATEGORY_GARMIN ++ "_" ++ r.getStr ColKey.NAME_GARMIN) r

/-- `process_equipment_data`, applied to the finished Exercises table. -/
def process_equipment_data (doc : List EquipCategory) (eq0 : List String)
    (rows : List Row) : List String × List Row :=
  let p := equipScan doc eq0
  (p.1, rows.map (applyRowEquip p.1 p.2))

/-- `process_exercises_data`: loop, muscle zero-fill, then
`process_equipment_data` on the resulting table.  Returns
(`all_muscles`, `all_equipment`, table). -/
def process_exercises_data (env : Env) (catalog : Catalog)
    (equipDoc : List EquipCategory) (st eq0 : List String) :
    List String × List String × List Row :=
  let p := catalogLoop (exercisesRow env) catalog st
  let rows := finalize p.1 p.2
  let q := process_equipment_data equipDoc eq0 rows
  (p.1, q.1, q.2)

/-! ### Yoga builder (`process_yoga_data`) -/

/-- The `pilates_lookup` dict: keys `f"{category}_{exercise_name}"` over the
Pilates catalog. -/
def pilates_lookup (cat : Catalog) : List (String × ExerciseEntry) :=
  cat.foldl
    (fun acc c =>
      c.2.foldl (fun acc ex => alistSet acc (c.1 ++ "_" ++ ex.1) ex.2) acc)
    []

/-- `process_yoga_data` per-exercise body: muscles are looked up in the
Pilates data first (a missing key raises, aborting the whole build), then the
detail `try/except` runs; the Yoga entry's own muscle lists are never read. -/
def yogaRow (env : Env) (lookup : List (String × ExerciseEntry))
    (st : List String) (category name : String) :
    Except String (List String × Row) :=
  let r := baseRow env.translations category name
  let key := category ++ "_" ++ name
  match alistGet lookup key with
  | none =>
      Except.error
        ("No corresponding exercise found in Pilates data for Yoga exercise: "
          ++ key)
  | some pe =>
      let p := trackMuscles st r pe.primaryMuscles pe.secondaryMuscles
      Except.ok (p.1, detailBlock env category name p.2)

/-- The Yoga double loop with the same 10-row debug guard; a raised lookup
error propagates immediately (remaining exercises are not processed and no
table is produced). -/
def yogaLoop (env : Env) (lookup : List (String × ExerciseEntry))
    (catalog : Catalog) (st : List String) :
    Except String (List String × List Row) :=
  catalog.foldl
    (fun acc cat =>
      cat.2.foldl
        (fun acc ex =>
          match acc with
          | Except.error e => Except.error e
          | Except.ok p =>
              if p.2.length ≥ 10 then Except.ok p
              else
                match yogaRow env lookup p.1 cat.1 ex.1 with
                | Except.error e => Except.error e
                | Except.ok q => Except.ok (q.1, p.2 ++ [q.2]))
        acc)
    (Except.ok (st, []))

/-- `process_yoga_data`: build `pilates_lookup` from the Pilates document,
run the loop, then the muscle zero-fill. -/
def process_yoga_data (env : Env) (yogaCat pilatesCat : Catalog)
    (st : List String) : Except String (List String × List Row) :=
  (yogaLoop env (pilates_lookup pilatesCat) yogaCat st).map
    (fun p => (p.1, finalize p.1 p.2))

/-! ### The whole run (`run`): Exercises (with equipment), Pilates, Yoga,
Mobility, threading `self.all_muscles` across the four builds. -/

/-- The four finished tables and the final accumulator sets. -/
structure RunOut where
  muscles : List String
  equipment : List String
  dfExercises : List Row
  dfPilates : List Row
  dfYoga : List Row
  dfMobility : List Row

/-- `run` up to the spreadsheet export: the four builds in source order with
the shared mutable `self.all_muscles` / `self.all_equipment` threaded
through; a Yoga lookup failure aborts the run. -/
def runCollector (env : Env) (exCat piCat yoCat moCat : Catalog)
    (equipDoc : List EquipCategory) : Except String RunOut :=
  let e := process_exercises_data env exCat equipDoc [] []
  let p := processSimpleData env piCat e.1
  match process_yoga_data env yoCat piCat p.1 with
  | Except.error msg => Except.error msg
  | Except.ok y =>
      let m := processSimpleData env moCat y.1
      Except.ok ⟨m.1, e.2.1, e.2.2, p.2, y.2, m.2⟩

/-! ### `compare_data` -/

/-- `compare_data(current_data, new_data)`: `False` on an outer length
mismatch, then per row `False` on a row length mismatch or any element pair
whose `str(...)` images differ, else `True` (the early `return False` of the
source is the short-circuit of `all`; the `min` bounds are exact because the
length checks precede them).  `strConv` models Python's `str`. -/
def compare_data {α : Type} (strConv : α → String)
    (current new : List (List α)) : Bool :=
  if current.length != new.length then false
  else
    (current.zip new).all fun rs =>
      if rs.1.length != rs.2.length then false
      else (rs.1.zip rs.2).all fun ab => strConv ab.1 == strConv ab.2

/-! ### Lemma toolkit -/

/-- The row as it stands at the end of the `try` branch or at the raise point
(both continuations read the same keys after overwriting). -/
def exRow : Except Row Row → Row
  | Except.ok r => r
  | Except.error r => r

theorem exRow_ok (r : Row) : exRow (Except.ok r) = r := rfl

theorem exRow_error (r : Row) : exRow (Except.error r) = r := rfl

theorem foldlSet_get (kf : String → ColKey)
    (hinj : ∀ a b : String, kf a = kf b → a = b) (v : Value)
    (l : List String) (r : Row) (m : String) :
    (l.foldl (fun r e => r.set (kf e) v) r) (kf m) =
      if m ∈ l then some v else r (kf m) := by
  induction l generalizing r with
  | nil => simp
  | cons x xs ih =>
      simp only [List.foldl_cons]
      rw [ih]
      by_cases hm : m ∈ xs
      · simp [hm, List.mem_cons]
      · by_cases hx : m = x
        · subst hx
          simp [hm, Row.set]
        · have hne : kf m ≠ kf x := fun h => hx (hinj _ _ h)
          rw [Row.set_other _ _ _ _ hne]
          simp [hm, hx, List.mem_cons]

theorem foldlSet_other (kf : String → ColKey) (v : Value)
    (l : List String) (r : Row) (k : ColKey) (hk : ∀ e, k ≠ kf e) :
    (l.foldl (fun r e => r.set (kf e) v) r) k = r k := by
  induction l generalizing r with
  | nil => rfl
  | cons x xs ih =>
      simp only [List.foldl_cons]
      rw [ih, Row.set_other _ _ _ _ (hk x)]

theorem foldlSetIfAbsent_get (kf : String → ColKey)
    (hinj : ∀ a b : String, kf a = kf b → a = b) (v : Value)
    (l : List String) (r : Row) (m : String) :
    (l.foldl
        (fun r e => if (r (kf e)).isSome then r else r.set (kf e) v) r)
      (kf m) =
      if (r (kf m)).isSome then r (kf m)
      else if m ∈ l then some v else r (kf m) := by
  induction l generalizing r with
  | nil => by_cases h : (r (kf m)).isSome <;> simp [h]
  | cons x xs ih =>
      simp only [List.foldl_cons]
      rw [ih]
      by_cases hsx : (r (kf x)).isSome
      · rw [if_pos hsx]
        by_cases hsm : (r (kf m)).isSome
        · simp [hsm]
        · by_cases hx : m = x
          · subst hx; exact absurd hsx hsm
          · simp [hsm, List.mem_cons, hx]
      · rw [if_neg hsx]
        by_cases hx : m = x
        · subst hx
          rw [Row.set_same]
          simp [hsx, List.mem_cons]
        · have hne : kf m ≠ kf x := fun h => hx (hinj _ _ h)
          rw [Row.set_other _ _ _ _ hne]
          simp [List.mem_cons, hx]

theorem foldlSetIfAbsent_other (kf : String → ColKey) (v : Value)
    (l : List String) (r : Row) (k : ColKey) (hk : ∀ e, k ≠ kf e) :
    (l.foldl
        (fun r e => if (r (kf e)).isSome then r else r.set (kf e) v) r) k
      = r k := by
  induction l generalizing r with
  | nil => rfl
  | cons x xs ih =>
      simp only [List.foldl_cons]
      rw [ih]
      by_cases hsx : (r (kf x)).isSome
      · simp [hsx]
      · simp [hsx, Row.set_other _ _ _ _ (hk x)]

theorem muscle_inj : ∀ a b : String, ColKey.MUSCLE a = ColKey.MUSCLE b → a = b := by
  intro a b h
  injection h

theorem equipment_inj :
    ∀ a b : String, ColKey.EQUIPMENT a = ColKey.EQUIPMENT b → a = b := by
  intro a b h
  injection h

theorem addPrimaries_get (r : Row) (ps : List String) (m : String) :
    addPrimaries r ps (ColKey.MUSCLE m) =
      if m ∈ ps then some (Value.nat 1) else r (ColKey.MUSCLE m) :=
  foldlSet_get ColKey.MUSCLE muscle_inj (Value.nat 1) ps r m

theorem addPrimaries_other (r : Row) (ps : List String) (k : ColKey)
    (hk : ∀ s, k ≠ ColKey.MUSCLE s) :
    addPrimaries r ps k = r k :=
  foldlSet_other ColKey.MUSCLE (Value.nat 1) ps r k hk

theorem addSecondaries_get (r : Row) (ss : List String) (m : String) :
    addSecondaries r ss (ColKey.MUSCLE m) =
      if (r (ColKey.MUSCLE m)).isSome then r (ColKey.MUSCLE m)
      else if m ∈ ss then some (Value.nat 2) else r (ColKey.MUSCLE m) :=
  foldlSetIfAbsent_get ColKey.MUSCLE muscle_inj (Value.nat 2) ss r m

theorem addSecondaries_other (r : Row) (ss : List String) (k : ColKey)
    (hk : ∀ s, k ≠ ColKey.MUSCLE s) :
    addSecondaries r ss k = r k :=
  foldlSetIfAbsent_other ColKey.MUSCLE (Value.nat 2) ss r k hk

/-- The score the two muscle loops leave for muscle `m`: primary wins, then
secondary, else untouched (derived characterization of `trackMuscles` on a row
with no prior entry for `m`). -/
def muscleScore (prim sec : Option (List String)) (m : String) : Option Value :=
  if m ∈ prim.getD [] then some (Value.nat 1)
  else if m ∈ sec.getD [] then some (Value.nat 2)
  else none

theorem trackMuscles_muscle (st : List String) (r : Row)
    (prim sec : Option (List String)) (m : String)
    (h : r (ColKey.MUSCLE m) = none) :
    (trackMuscles st r prim sec).2 (ColKey.MUSCLE m) = muscleScore prim sec m := by
  cases prim with
  | none =>
      cases sec with
      | none => simp [trackMuscles, muscleScore, h]
      | some ss =>
          simp only [trackMuscles, muscleScore, Option.getD]
          rw [addSecondaries_get, h]
          simp
  | some ps =>
      cases sec with
      | none =>
          simp only [trackMuscles, muscleScore, Option.getD]
          rw [addPrimaries_get, h]
          by_cases hp : m ∈ ps <;> simp [hp]
      | some ss =>
          simp only [trackMuscles, muscleScore, Option.getD]
          rw [addSecondaries_get, addPrimaries_get, h]
          by_cases hp : m ∈ ps <;> simp [hp]

theorem trackMuscles_other (st : List String) (r : Row)
    (prim sec : Option (List String)) (k : ColKey)
    (hk : ∀ s, k ≠ ColKey.MUSCLE s) :
    (trackMuscles st r prim sec).2 k = r k := by
  cases prim <;> cases sec <;>
    simp [trackMuscles, addPrimaries_other _ _ _ hk, addSecondaries_other _ _ _ hk]

theorem baseRow_muscle (tr : Translations) (c n m : String) :
    baseRow tr c n (ColKey.MUSCLE m) = none := by
  simp [baseRow, Row.set, Row.empty]

theorem baseRow_name (tr : Translations) (c n : String) :
    baseRow tr c n ColKey.Name = some (Value.str (resolveName tr c n)) := by
  simp [baseRow, Row.set]

theorem baseRow_detailed (tr : Translations) (c n : String) :
    baseRow tr c n ColKey.DETAILED_INFO = none := by
  simp [baseRow, Row.set, Row.empty]

theorem detailExcept_muscle (r : Row) (m : String) :
    detailExcept r (ColKey.MUSCLE m) = r (ColKey.MUSCLE m) := by
  simp [detailExcept, Row.set]

theorem detailExcept_found (r : Row) :
    detailExcept r ColKey.DETAILED_INFO = some (Value.bool false) := by
  simp [detailExcept, Row.set]

theorem detailExcept_difficulty (r : Row) :
    detailExcept r ColKey.DIFFICULTY = some (Value.str "") := by
  simp [detailExcept, Row.set]

theorem detailExcept_description (r : Row) :
    detailExcept r ColKey.DESCRIPTION = some (Value.str "") := by
  simp [detailExcept, Row.set]

theorem detailExcept_image (r : Row) :
    detailExcept r ColKey.IMAGE = some (Value.str "") := by
  simp [detailExcept, Row.set]

theorem exRow_probeSet_other (probe : String → Except Unit Nat) (u : String)
    (r : Row) (k : ColKey) (h : k ≠ ColKey.IMAGE) :
    exRow (probeSet probe u r) k = r k := by
  cases hp : probe u with
  | error e => simp [probeSet, hp, exRow]
  | ok c =>
      simp only [probeSet, hp, exRow]
      split
      · exact Row.set_other _ _ _ _ h
      · rfl

theorem probeSet_isOk (probe : String → Except Unit Nat) (u : String) (r : Row)
    (h : (probe u).isOk = true) : (probeSet probe u r).isOk = true := by
  cases hp : probe u with
  | error e => rw [hp] at h; exact absurd h (by simp [Except.isOk, Except.toBool])
  | ok c => simp [probeSet, hp, Except.isOk, Except.toBool]

theorem exRow_imageHero_other (probe : String → Except Unit Nat)
    (d : DetailedData) (r : Row) (k : ColKey) (h : k ≠ ColKey.IMAGE) :
    exRow (imageHero probe d r) k = r k := by
  cases hh : d.heroImage with
  | none => simp [imageHero, hh, exRow]
  | some s =>
      simp only [imageHero, hh]
      split
      · rfl
      · exact exRow_probeSet_other _ _ _ _ h

theorem exRow_imageThumb_other (probe : String → Except Unit Nat)
    (d : DetailedData) (r : Row) (k : ColKey) (h : k ≠ ColKey.IMAGE) :
    exRow (imageThumb probe d r) k = r k := by
  unfold imageThumb
  split
  · rfl
  · split
    · split
      · split
        · rfl
        · exact exRow_probeSet_other _ _ _ _ h
      · rfl
    · rfl

theorem exRow_imageStep_other (probe : String → Except Unit Nat)
    (d : DetailedData) (r : Row) (k : ColKey) (h : k ≠ ColKey.IMAGE) :
    exRow (imageStep probe d r) k = r k := by
  simp only [imageStep]
  cases hh : imageHero probe d (r.set ColKey.IMAGE (Value.str "")) with
  | error r1 =>
      have := exRow_imageHero_other probe d (r.set ColKey.IMAGE (Value.str "")) k h
      rw [hh] at this
      simp only [exRow] at this ⊢
      rw [this, Row.set_other _ _ _ _ h]
  | ok r1 =>
      have := exRow_imageHero_other probe d (r.set ColKey.IMAGE (Value.str "")) k h
      rw [hh] at this
      simp only [exRow] at this
      rw [exRow_imageThumb_other _ _ _ _ h, this, Row.set_other _ _ _ _ h]

theorem exRow_detailTry_muscle (probe : String → Except Unit Nat) (u : String)
    (d : DetailedData) (r : Row) (m : String) :
    exRow (detailTry probe u d r) (ColKey.MUSCLE m) = r (ColKey.MUSCLE m) := by
  simp only [detailTry]
  rw [exRow_imageStep_other _ _ _ _ (by simp)]
  simp [Row.set]

theorem exRow_detailTry_found (probe : String → Except Unit Nat) (u : String)
    (d : DetailedData) (r : Row) :
    exRow (detailTry probe u d r) ColKey.DETAILED_INFO =
      some (Value.bool true) := by
  simp only [detailTry]
  rw [exRow_imageStep_other _ _ _ _ (by simp)]
  simp [Row.set]

theorem exRow_detailTry_difficulty (probe : String → Except Unit Nat)
    (u : String) (d : DetailedData) (r : Row) :
    exRow (detailTry probe u d r) ColKey.DIFFICULTY =
      some (Value.str (d.difficulty.getD "")) := by
  simp only [detailTry]
  rw [exRow_imageStep_other _ _ _ _ (by simp)]
  simp [Row.set]

theorem exRow_detailTry_description (probe : String → Except Unit Nat)
    (u : String) (d : DetailedData) (r : Row) :
    exRow (detailTry probe u d r) ColKey.DESCRIPTION =
      some (Value.str (d.description.getD "")) := by
  simp only [detailTry]
  rw [exRow_imageStep_other _ _ _ _ (by simp)]
  simp [Row.set]

theorem detailBlock_muscle (env : Env) (c n : String) (r : Row) (m : String) :
    detailBlock env c n r (ColKey.MUSCLE m) = r (ColKey.MUSCLE m) := by
  cases hd : env.detail c n with
  | error e =>
      simp only [detailBlock, hd]
      exact detailExcept_muscle _ _
  | ok d =>
      simp only [detailBlock, hd]
      cases ht : detailTry env.probe (detailPageUrl c n) d r with
      | ok r1 =>
          have := exRow_detailTry_muscle env.probe (detailPageUrl c n) d r m
          rw [ht] at this
          exact this
      | error r1 =>
          have := exRow_detailTry_muscle env.probe (detailPageUrl c n) d r m
          rw [ht] at this
          simp only [exRow] at this
          show detailExcept r1 (ColKey.MUSCLE m) = r (ColKey.MUSCLE m)
          rw [detailExcept_muscle, this]

theorem backfill_get (st : List String) (r : Row) (m : String) :
    backfill st r (ColKey.MUSCLE m) =
      if (r (ColKey.MUSCLE m)).isSome then r (ColKey.MUSCLE m)
      else if m ∈ st then some (Value.nat 0) else r (ColKey.MUSCLE m) :=
  foldlSetIfAbsent_get ColKey.MUSCLE muscle_inj (Value.nat 0) st r m

theorem backfill_get_mem (st : List String) (r : Row) (m : String)
    (h : m ∈ st) :
    backfill st r (ColKey.MUSCLE m) =
      some ((r (ColKey.MUSCLE m)).getD (Value.nat 0)) := by
  rw [backfill_get]
  cases hv : r (ColKey.MUSCLE m) with
  | none => simp [h]
  | some v => simp

theorem backfill_other (st : List String) (r : Row) (k : ColKey)
    (hk : ∀ s, k ≠ ColKey.MUSCLE s) :
    backfill st r k = r k :=
  foldlSetIfAbsent_other ColKey.MUSCLE (Value.nat 0) st r k hk

theorem mem_insertSorted (x a : String) (l : List String) :
    a ∈ insertSorted x l ↔ a = x ∨ a ∈ l := by
  induction l with
  | nil => simp [insertSorted]
  | cons y ys ih =>
      simp only [insertSorted]
      split
      · simp [List.mem_cons]
      · simp only [List.mem_cons, ih]
        tauto

theorem mem_sortStrings (a : String) (l : List String) :
    a ∈ sortStrings l ↔ a ∈ l := by
  induction l with
  | nil => simp [sortStrings]
  | cons y ys ih =>
      simp only [sortStrings, List.foldr_cons] at ih ⊢
      rw [mem_insertSorted, ih, List.mem_cons]

theorem equipZeroPass_other (eqSt : List String) (r : Row) (k : ColKey)
    (hk : ∀ e, k ≠ ColKey.EQUIPMENT e) :
    equipZeroPass eqSt r k = r k :=
  foldlSet_other ColKey.EQUIPMENT (Value.nat 0) _ r k hk

theorem equipZeroPass_getStr (eqSt : List String) (r : Row) (k : ColKey)
    (hk : ∀ e, k ≠ ColKey.EQUIPMENT e) :
    (equipZeroPass eqSt r).getStr k = r.getStr k := by
  unfold Row.getStr
  rw [equipZeroPass_other _ _ _ hk]

theorem equipZeroPass_get (eqSt : List String) (r : Row) (e : String)
    (he : e ∈ eqSt) :
    equipZeroPass eqSt r (ColKey.EQUIPMENT e) = some (Value.nat 0) := by
  unfold equipZeroPass
  rw [foldlSet_get ColKey.EQUIPMENT equipment_inj]
  simp [(mem_sortStrings e eqSt).2 he]

theorem equipOnesPass_other (mp : List (String × List String)) (key : String)
    (r : Row) (k : ColKey) (hk : ∀ e, k ≠ ColKey.EQUIPMENT e) :
    equipOnesPass mp key r k = r k := by
  unfold equipOnesPass
  cases hg : alistGet mp key with
  | none => rfl
  | some eqs => exact foldlSet_other ColKey.EQUIPMENT _ _ _ _ hk

theorem applyRowEquip_muscle (eqSt : List String)
    (mp : List (String × List String)) (r : Row) (m : String) :
    applyRowEquip eqSt mp r (ColKey.MUSCLE m) = r (ColKey.MUSCLE m) := by
  have hk : ∀ e, ColKey.MUSCLE m ≠ ColKey.EQUIPMENT e := by intro e; simp
  simp only [applyRowEquip]
  rw [equipOnesPass_other _ _ _ _ hk, equipZeroPass_other _ _ _ hk]

theorem applyRowEquip_get (eqSt : List String)
    (mp : List (String × List String)) (r : Row) (e : String)
    (he : e ∈ eqSt) :
    applyRowEquip eqSt mp r (ColKey.EQUIPMENT e) =
      some (Value.nat
        (if e ∈ (alistGet mp (r.getStr ColKey.CATEGORY_GARMIN ++ "_" ++
            r.getStr ColKey.NAME_GARMIN)).getD [] then 1 else 0)) := by
  simp only [applyRowEquip]
  rw [equipZeroPass_getStr _ _ _ (by intro s; simp),
    equipZeroPass_getStr _ _ _ (by intro s; simp)]
  have hz := equipZeroPass_get eqSt r e he
  unfold equipOnesPass
  cases hg : alistGet mp (r.getStr ColKey.CATEGORY_GARMIN ++ "_" ++
      r.getStr ColKey.NAME_GARMIN) with
  | none => simp [hz]
  | some eqs =>
      simp only [Option.getD]
      rw [foldlSet_get ColKey.EQUIPMENT equipment_inj]
      by_cases hin : e ∈ eqs
      · simp [hin]
      · simp [hin, hz]

theorem imageHero_isOk (probe : String → Except Unit Nat) (d : DetailedData)
    (r : Row) (hp : ∀ u, (probe u).isOk = true) :
    (imageHero probe d r).isOk = true := by
  unfold imageHero
  split
  · split
    · rfl
    · exact probeSet_isOk _ _ _ (hp _)
  · rfl

theorem imageThumb_isOk (probe : String → Except Unit Nat) (d : DetailedData)
    (r : Row) (hp : ∀ u, (probe u).isOk = true) :
    (imageThumb probe d r).isOk = true := by
  unfold imageThumb
  split
  · rfl
  · split
    · split
      · split
        · rfl
        · exact probeSet_isOk _ _ _ (hp _)
      · rfl
    · rfl

theorem imageStep_isOk (probe : String → Except Unit Nat) (d : DetailedData)
    (r : Row) (hp : ∀ u, (probe u).isOk = true) :
    (imageStep probe d r).isOk = true := by
  unfold imageStep
  cases hh : imageHero probe d (r.set ColKey.IMAGE (Value.str "")) with
  | error r1 =>
      have := imageHero_isOk probe d (r.set ColKey.IMAGE (Value.str "")) hp
      rw [hh] at this
      exact absurd this (by simp [Except.isOk, Except.toBool])
  | ok r1 => exact imageThumb_isOk probe d r1 hp

theorem detailTry_isOk (probe : String → Except Unit Nat) (u : String)
    (d : DetailedData) (r : Row) (hp : ∀ u, (probe u).isOk = true) :
    (detailTry probe u d r).isOk = true :=
  imageStep_isOk probe d _ hp

/-! ### Claims -/

/-- A network environment in which every fetch raises: the builders take every
`except` branch. -/
def trivEnv : Env :=
  ⟨[], fun _ _ => Except.error (), fun _ => Except.error ()⟩

/-- C5: for every exercise whose key `"{category}_{exerciseKey}"` is absent
from the translation table, `get_exercise_name` signals the missing
translation and the resolved display name is the fallback
`"{category} {exerciseKey}"`; for every key present, the resolved name is the
table's value (and the builders store the resolved name in the row's `Name`
field). -/
theorem c5_translation_fallback (tr : Translations) (category name : String) :
    (alistGet tr (category ++ "_" ++ name) = none →
      get_exercise_name tr category name =
        Except.error ("Translation not found for " ++ (category ++ "_" ++ name))
      ∧ resolveName tr category name = category ++ " " ++ name)
    ∧ (∀ v, alistGet tr (category ++ "_" ++ name) = some v →
      get_exercise_name tr category name = Except.ok v
      ∧ resolveName tr category name = v)
    ∧ baseRow tr category name ColKey.Name =
      some (Value.str (resolveName tr category name)) := by
  refine ⟨?_, ?_, baseRow_name tr category name⟩
  · intro h
    constructor
    · simp [get_exercise_name, h]
    · simp [resolveName, get_exercise_name, h]
  · intro v h
    constructor
    · simp [get_exercise_name, h]
    · simp [resolveName, get_exercise_name, h]

/-- Witness for C5 at a present key and a missing key. -/
theorem c5_translation_fallback_witness :
    resolveName [("SQUAT_BARBELL", "Barbell Squat")] "SQUAT" "BARBELL" =
      "Barbell Squat"
    ∧ resolveName [] "SQUAT" "BARBELL" = "SQUAT BARBELL" :=
  ⟨((c5_translation_fallback [("SQUAT_BARBELL", "Barbell Squat")]
      "SQUAT" "BARBELL").2.1 "Barbell Squat" (by rfl)).2,
   ((c5_translation_fallback [] "SQUAT" "BARBELL").1 (by rfl)).2⟩

/-- C6: the primary pass runs strictly before the secondary pass (that is what
`trackMuscles` does), a muscle set to 1 by the primary pass is still 1 after
the secondary pass, and the secondary pass never writes to a muscle already
set on the row. -/
theorem c6_primary_sticky (st : List String) (r : Row) (ps ss : List String)
    (m : String) :
    (m ∈ ps →
      addSecondaries (addPrimaries r ps) ss (ColKey.MUSCLE m) =
        some (Value.nat 1))
    ∧ ((r (ColKey.MUSCLE m)).isSome = true →
      addSecondaries r ss (ColKey.MUSCLE m) = r (ColKey.MUSCLE m))
    ∧ (trackMuscles st r (some ps) (some ss)).2 =
      addSecondaries (addPrimaries r ps) ss := by
  refine ⟨?_, ?_, rfl⟩
  · intro hm
    rw [addSecondaries_get, addPrimaries_get]
    simp [hm]
  · intro hs
    rw [addSecondaries_get, if_pos hs]

/-- Witness for C6: `CORE` primary then `CORE` secondary stays 1; a set muscle
is untouched by the secondary pass. -/
theorem c6_primary_sticky_witness :
    addSecondaries (addPrimaries Row.empty ["CORE"]) ["CORE"]
      (ColKey.MUSCLE "CORE") = some (Value.nat 1)
    ∧ addSecondaries (Row.empty.set (ColKey.MUSCLE "CORE") (Value.nat 1))
        ["CORE"] (ColKey.MUSCLE "CORE") =
      (Row.empty.set (ColKey.MUSCLE "CORE") (Value.nat 1))
        (ColKey.MUSCLE "CORE") :=
  ⟨(c6_primary_sticky [] Row.empty ["CORE"] ["CORE"] "CORE").1 (by simp),
   (c6_primary_sticky [] (Row.empty.set (ColKey.MUSCLE "CORE") (Value.nat 1))
      ["CORE"] ["CORE"] "CORE").2.1 (by rw [Row.set_same]; rfl)⟩

/-- C9: on the Exercises table, every member of the equipment universe becomes
a binary column: 1 exactly when the equipment is in the set the equipment
document maps to the row's `"{CATEGORY_GARMIN}_{NAME_GARMIN}"` key, else 0
(also for rows with no mapping entry); the transformed row is the one stored
in the table. -/
theorem c9_equipment_binary (doc : List EquipCategory) (rows : List Row)
    (e : String) (r : Row) (he : e ∈ (equipScan doc []).1) (hr : r ∈ rows) :
    applyRowEquip (equipScan doc []).1 (equipScan doc []).2 r
        (ColKey.EQUIPMENT e) =
      some (Value.nat
        (if e ∈ (alistGet (equipScan doc []).2
            (r.getStr ColKey.CATEGORY_GARMIN ++ "_" ++
              r.getStr ColKey.NAME_GARMIN)).getD [] then 1 else 0))
    ∧ applyRowEquip (equipScan doc []).1 (equipScan doc []).2 r
        ∈ (process_equipment_data doc [] rows).2 := by
  refine ⟨applyRowEquip_get _ _ _ _ he, ?_⟩
  simp only [process_equipment_data]
  exact List.mem_map_of_mem _ hr

/-- The one-row Exercises table of the spec's end-to-end equipment example. -/
def c9row : Row :=
  (Row.empty.set ColKey.CATEGORY_GARMIN (Value.str "CARDIO")).set
    ColKey.NAME_GARMIN (Value.str "JUMPING_JACK")

/-- The spec's equipment example document. -/
def c9doc : List EquipCategory := [⟨"CARDIO", [⟨"JUMPING_JACK", ["MAT"]⟩]⟩]

/-- Witness for C9: the `"CARDIO_JUMPING_JACK" → ["MAT"]` example. -/
theorem c9_equipment_binary_witness :
    applyRowEquip (equipScan c9doc []).1 (equipScan c9doc []).2 c9row
        (ColKey.EQUIPMENT "MAT") =
      some (Value.nat
        (if "MAT" ∈ (alistGet (equipScan c9doc []).2
            (c9row.getStr ColKey.CATEGORY_GARMIN ++ "_" ++
              c9row.getStr ColKey.NAME_GARMIN)).getD [] then 1 else 0))
    ∧ applyRowEquip (equipScan c9doc []).1 (equipScan c9doc []).2 c9row
        ∈ (process_equipment_data c9doc [] [c9row]).2 :=
  c9_equipment_binary c9doc [c9row] "MAT" c9row (by decide)
    (List.mem_singleton.mpr rfl)

/-- Row-level equality of `compare_data` (the inner loop of the source). -/
theorem compareRow_iff {α : Type} (f : α → String) (xs ys : List α) :
    (if xs.length != ys.length then false
     else (xs.zip ys).all fun ab => f ab.1 == f ab.2) = true ↔
      List.Forall₂ (fun a b => f a = f b) xs ys := by
  by_cases hl : xs.length = ys.length
  · have hb : (xs.length != ys.length) = false := by simp [hl]
    rw [hb]
    simp only [Bool.false_eq_true, if_false]
    rw [List.forall₂_iff_zip]
    constructor
    · intro h
      refine ⟨hl, ?_⟩
      intro a b hab
      have := List.all_eq_true.mp h (a, b) hab
      simpa using this
    · intro h
      apply List.all_eq_true.mpr
      intro ab hab
      obtain ⟨a, b⟩ := ab
      have := h.2 hab
      simpa using this
  · have hb : (xs.length != ys.length) = true := by simp [hl]
    rw [hb]
    simp only [if_true]
    constructor
    · intro h
      exact absurd h (by simp)
    · intro h
      exact absurd h.length_eq hl

/-- C10: `compare_data` returns `True` exactly when the two nested lists have
equal length, corresponding rows have equal length, and corresponding elements
are equal after conversion to string. -/
theorem c10_compare_data_iff {α : Type} (f : α → String)
    (current new : List (List α)) :
    compare_data f current new = true ↔
      List.Forall₂ (fun r s => List.Forall₂ (fun a b => f a = f b) r s)
        current new := by
  unfold compare_data
  by_cases hl : current.length = new.length
  · have hb : (current.length != new.length) = false := by simp [hl]
    rw [hb]
    simp only [Bool.false_eq_true, if_false]
    rw [List.forall₂_iff_zip]
    constructor
    · intro h
      refine ⟨hl, ?_⟩
      intro r1 r2 hmem
      exact (compareRow_iff f r1 r2).mp (List.all_eq_true.mp h (r1, r2) hmem)
    · intro h
      apply List.all_eq_true.mpr
      intro rs hmem
      obtain ⟨r1, r2⟩ := rs
      exact (compareRow_iff f r1 r2).mpr (h.2 hmem)
  · have hb : (current.length != new.length) = true := by simp [hl]
    rw [hb]
    simp only [if_true]
    constructor
    · intro h
      exact absurd h (by simp)
    · intro h
      exact absurd h.length_eq hl

/-- Witness for C10 at matching and mismatching concrete inputs. -/
theorem c10_compare_data_iff_witness :
    List.Forall₂
      (fun r s => List.Forall₂ (fun a b => (fun x : String => x) a =
        (fun x : String => x) b) r s)
      [["1", "a"]] [["1", "a"]]
    ∧ ¬ List.Forall₂
      (fun r s => List.Forall₂ (fun a b => (fun x : String => x) a =
        (fun x : String => x) b) r s)
      [["1", "a"]] [["1", "b"]] :=
  ⟨(c10_compare_data_iff (fun x : String => x) [["1", "a"]] [["1", "a"]]).mp
      (by rfl),
   fun h =>
    absurd
      ((c10_compare_data_iff (fun x : String => x) [["1", "a"]]
          [["1", "b"]]).mpr h)
      (by decide)⟩

theorem string_append_ne_empty (s t : String) (hs : s ≠ "") : s ++ t ≠ "" := by
  intro h
  apply hs
  have hd : s.data ++ t.data = ([] : List Char) := by
    have h2 := congrArg String.data h
    rw [String.data_append] at h2
    exact h2
  have h3 : s.data = [] := (List.append_eq_nil.mp hd).1
  cases s with
  | mk l =>
      simp only at h3
      subst h3
      rfl

/-- C7: for a successfully fetched detail document, the image resolution of
the `try` branch follows the strict precedence hero image (reachable) first,
then first video's thumbnail (reachable), then absent; in particular a
document with `heroImage` absent and a reachable `videos[0].thumbnail` yields
the thumbnail-derived URL, which is not the absent value `""`. -/
theorem c7_image_precedence (probe : String → Except Unit Nat) (u : String)
    (d : DetailedData) (r : Row) :
    (∀ h, d.heroImage = some h → h ≠ "" →
      probe ("https://connect.garmin.com" ++ h) = Except.ok 200 →
      (detailTry probe u d r).isOk = true
      ∧ exRow (detailTry probe u d r) ColKey.IMAGE =
        some (Value.str ("https://connect.garmin.com" ++ h)))
    ∧ (∀ v vs t, d.heroImage = none → d.videos = some (v :: vs) →
      v.thumbnail = some t → t ≠ "" →
      probe ("https://connectvideo.garmin.com" ++ t) = Except.ok 200 →
      (detailTry probe u d r).isOk = true
      ∧ exRow (detailTry probe u d r) ColKey.IMAGE =
        some (Value.str ("https://connectvideo.garmin.com" ++ t))
      ∧ ("https://connectvideo.garmin.com" ++ t) ≠ "")
    ∧ (d.heroImage = none → d.videos = none →
      (detailTry probe u d r).isOk = true
      ∧ exRow (detailTry probe u d r) ColKey.IMAGE = some (Value.str "")) := by
  refine ⟨?_, ?_, ?_⟩
  · intro h hh hne0 hp
    have hbe : (h == "") = false := by simp [hne0]
    have hne : ("https://connect.garmin.com" ++ h) ≠ "" :=
      string_append_ne_empty _ _ (by decide)
    constructor <;>
      simp [detailTry, imageStep, imageHero, imageThumb, hh, hbe, probeSet,
        hp, Row.set, Value.truthy, hne, exRow, Except.isOk, Except.toBool]
  · intro v vs t hh hv ht hne0 hp
    have hbe : (t == "") = false := by simp [hne0]
    have hne : ("https://connectvideo.garmin.com" ++ t) ≠ "" :=
      string_append_ne_empty _ _ (by decide)
    refine ⟨?_, ?_, hne⟩ <;>
      simp [detailTry, imageStep, imageHero, imageThumb, hh, hv, ht, hbe,
        probeSet, hp, Row.set, Value.truthy, hne, exRow, Except.isOk,
        Except.toBool]
  · intro hh hv
    constructor <;>
      simp [detailTry, imageStep, imageHero, imageThumb, hh, hv, Row.set,
        Value.truthy, exRow, Except.isOk, Except.toBool]

/-- Witness for C7: thumbnail fallback and hero precedence at concrete
documents and a concrete probe. -/
theorem c7_image_precedence_witness :
    (detailTry (fun _ => Except.ok 200) "u"
        (⟨none, none, none, some [⟨some "/v.jpg"⟩], none, none⟩ : DetailedData)
        Row.empty).isOk = true
    ∧ exRow (detailTry (fun _ => Except.ok 200) "u"
        (⟨none, none, none, some [⟨some "/v.jpg"⟩], none, none⟩ : DetailedData)
        Row.empty) ColKey.IMAGE =
      some (Value.str ("https://connectvideo.garmin.com" ++ "/v.jpg"))
    ∧ exRow (detailTry (fun _ => Except.ok 200) "u"
        (⟨none, none, some "/h.jpg", none, none, none⟩ : DetailedData)
        Row.empty) ColKey.IMAGE =
      some (Value.str ("https://connect.garmin.com" ++ "/h.jpg")) :=
  ⟨((c7_image_precedence (fun _ => Except.ok 200) "u"
      ⟨none, none, none, some [⟨some "/v.jpg"⟩], none, none⟩ Row.empty).2.1
      ⟨some "/v.jpg"⟩ [] "/v.jpg" rfl rfl rfl (by decide) rfl).1,
   ((c7_image_precedence (fun _ => Except.ok 200) "u"
      ⟨none, none, none, some [⟨some "/v.jpg"⟩], none, none⟩ Row.empty).2.1
      ⟨some "/v.jpg"⟩ [] "/v.jpg" rfl rfl rfl (by decide) rfl).2.1,
   ((c7_image_precedence (fun _ => Except.ok 200) "u"
      ⟨none, none, some "/h.jpg", none, none, none⟩ Row.empty).1
      "/h.jpg" rfl (by decide) rfl).2⟩

theorem exercisesRow_eq_error (env : Env) (st : List String) (c n : String)
    (entry : ExerciseEntry) (e : Unit) (hd : env.detail c n = Except.error e) :
    exercisesRow env st c n entry =
      trackMuscles st (detailExcept (baseRow env.translations c n))
        entry.primaryMuscles entry.secondaryMuscles := by
  simp only [exercisesRow, hd]

theorem exercisesRow_eq_ok (env : Env) (st : List String) (c n : String)
    (entry : ExerciseEntry) (d : DetailedData) (r1 : Row)
    (hd : env.detail c n = Except.ok d)
    (ht : detailTry env.probe (detailPageUrl c n) d
        (baseRow env.translations c n) = Except.ok r1) :
    exercisesRow env st c n entry =
      trackMuscles st r1 d.primaryMuscles d.secondaryMuscles := by
  simp only [exercisesRow, hd, ht]

theorem exercisesRow_eq_exc (env : Env) (st : List String) (c n : String)
    (entry : ExerciseEntry) (d : DetailedData) (r1 : Row)
    (hd : env.detail c n = Except.ok d)
    (ht : detailTry env.probe (detailPageUrl c n) d
        (baseRow env.translations c n) = Except.error r1) :
    exercisesRow env st c n entry =
      trackMuscles st (detailExcept r1)
        entry.primaryMuscles entry.secondaryMuscles := by
  simp only [exercisesRow, hd, ht]

/-- Counterexample to C3 as stated: a Pilates exercise whose detail fetch
succeeds (`DETAILED_INFO = true`) with detail muscle list `["X"]` while the
catalog entry lists `["Y"]` — the emitted row scores `Y`, not `X`: Pilates
(and Mobility) always use the catalog-embedded lists. -/
theorem c3_counterexample :
    ((processSimpleData
        ⟨[], fun _ _ => Except.ok ⟨none, none, none, none, some ["X"], none⟩,
          fun _ => Except.error ()⟩
        [("C", [("E", ⟨some ["Y"], none⟩)])] []).2.map
      (fun r => (r ColKey.DETAILED_INFO, r (ColKey.MUSCLE "X"),
        r (ColKey.MUSCLE "Y")))) =
    [(some (Value.bool true), none, some (Value.nat 1))] := by
  rfl

/-- C3 amended: in the Exercises builder, a row with `found=true` takes its
muscle scores from the detail document and a row with `found=false` from the
catalog entry, never merged; in the Pilates and Mobility builders the muscle
scores always come from the catalog entry, regardless of the detail
outcome. -/
theorem c3_amended_muscle_sources (env : Env) (st : List String)
    (c n : String) (entry : ExerciseEntry) (m : String) :
    ((simpleRow env st c n entry).2 (ColKey.MUSCLE m) =
      muscleScore entry.primaryMuscles entry.secondaryMuscles m)
    ∧ (∀ d, env.detail c n = Except.ok d →
        (exercisesRow env st c n entry).2 ColKey.DETAILED_INFO =
          some (Value.bool true) →
        (exercisesRow env st c n entry).2 (ColKey.MUSCLE m) =
          muscleScore d.primaryMuscles d.secondaryMuscles m)
    ∧ ((exercisesRow env st c n entry).2 ColKey.DETAILED_INFO =
          some (Value.bool false) →
        (exercisesRow env st c n entry).2 (ColKey.MUSCLE m) =
          muscleScore entry.primaryMuscles entry.secondaryMuscles m) := by
  refine ⟨?_, ?_, ?_⟩
  · simp only [simpleRow]
    apply trackMuscles_muscle
    rw [detailBlock_muscle, baseRow_muscle]
  · intro d hd hfound
    cases ht : detailTry env.probe (detailPageUrl c n) d
        (baseRow env.translations c n) with
    | ok r1 =>
        rw [exercisesRow_eq_ok env st c n entry d r1 hd ht]
        apply trackMuscles_muscle
        have hmu := exRow_detailTry_muscle env.probe (detailPageUrl c n) d
          (baseRow env.translations c n) m
        rw [ht] at hmu
        simp only [exRow] at hmu
        rw [hmu, baseRow_muscle]
    | error r1 =>
        rw [exercisesRow_eq_exc env st c n entry d r1 hd ht] at hfound
        rw [trackMuscles_other _ _ _ _ _ (by intro s; simp),
          detailExcept_found] at hfound
        simp at hfound
  · intro hfound
    cases hd : env.detail c n with
    | error e =>
        rw [exercisesRow_eq_error env st c n entry e hd]
        apply trackMuscles_muscle
        rw [detailExcept_muscle, baseRow_muscle]
    | ok d =>
        cases ht : detailTry env.probe (detailPageUrl c n) d
            (baseRow env.translations c n) with
        | ok r1 =>
            rw [exercisesRow_eq_ok env st c n entry d r1 hd ht] at hfound
            rw [trackMuscles_other _ _ _ _ _ (by intro s; simp)] at hfound
            have hDI := exRow_detailTry_found env.probe (detailPageUrl c n) d
              (baseRow env.translations c n)
            rw [ht] at hDI
            simp only [exRow] at hDI
            rw [hDI] at hfound
            simp at hfound
        | error r1 =>
            rw [exercisesRow_eq_exc env st c n entry d r1 hd ht]
            apply trackMuscles_muscle
            have hmu := exRow_detailTry_muscle env.probe (detailPageUrl c n) d
              (baseRow env.translations c n) m
            rw [ht] at hmu
            simp only [exRow] at hmu
            rw [detailExcept_muscle, hmu, baseRow_muscle]

/-- Environment for the C3 witness: detail fetch succeeds with muscle list
`["X"]`, probes return status 404 without raising. -/
def c3wEnv : Env :=
  ⟨[], fun _ _ => Except.ok ⟨none, none, none, none, some ["X"], none⟩,
    fun _ => Except.ok 404⟩

/-- Witness for C3 (amended): Pilates-style row scores catalog muscle `Y`;
Exercises-style row with `found=true` scores detail muscle `X`. -/
theorem c3_amended_muscle_sources_witness :
    (simpleRow c3wEnv [] "C" "E" ⟨some ["Y"], none⟩).2 (ColKey.MUSCLE "Y") =
      muscleScore (some ["Y"]) none "Y"
    ∧ (exercisesRow c3wEnv [] "C" "E" ⟨some ["Y"], none⟩).2
        (ColKey.MUSCLE "X") = muscleScore (some ["X"]) none "X" :=
  ⟨(c3_amended_muscle_sources c3wEnv [] "C" "E" ⟨some ["Y"], none⟩ "Y").1,
   (c3_amended_muscle_sources c3wEnv [] "C" "E" ⟨some ["Y"], none⟩ "X").2.1
      ⟨none, none, none, none, some ["X"], none⟩ rfl (by rfl)⟩

theorem imageHero_error_of_probe_raise (probe : String → Except Unit Nat)
    (d : DetailedData) (r : Row) (h : String) (hh : d.heroImage = some h)
    (hne : (h == "") = false)
    (hp : probe ("https://connect.garmin.com" ++ h) = Except.error ()) :
    imageHero probe d r = Except.error r := by
  simp [imageHero, hh, hne, probeSet, hp]

theorem detailTry_error_of_probe_raise (probe : String → Except Unit Nat)
    (u : String) (d : DetailedData) (r : Row) (h : String)
    (hh : d.heroImage = some h) (hne : (h == "") = false)
    (hp : probe ("https://connect.garmin.com" ++ h) = Except.error ()) :
    detailTry probe u d r = Except.error
      (((((r.set ColKey.DETAILED_INFO (Value.bool true)).set
          ColKey.URL (Value.str u)).set
          ColKey.DIFFICULTY (Value.str (d.difficulty.getD ""))).set
          ColKey.DESCRIPTION (Value.str (d.description.getD ""))).set
          ColKey.IMAGE (Value.str "")) := by
  simp only [detailTry, imageStep]
  rw [imageHero_error_of_probe_raise probe d _ h hh hne hp]

/-- Counterexample to C8 as stated: the detail fetch succeeds with difficulty
`"EASY"` and a hero image, but the reachability probe raises; instead of
merely leaving the image absent, the whole `try` block fails over to the
`except` branch: `found=false` and the fetched difficulty is discarded. -/
theorem c8_counterexample :
    ((process_exercises_data
        ⟨[], fun _ _ =>
            Except.ok ⟨some "EASY", none, some "/hero.png", none, none, none⟩,
          fun _ => Except.error ()⟩
        [("C", [("E", ⟨none, none⟩)])] [] [] []).2.2.map
      (fun r => (r ColKey.DETAILED_INFO, r ColKey.DIFFICULTY,
        r ColKey.IMAGE))) =
    [(some (Value.bool false), some (Value.str ""), some (Value.str ""))] := by
  rfl

/-- C8 amended: a probe that returns an HTTP status (even a failing one) never
aborts the `try` branch — the row keeps `found=true` with the fetched
difficulty and description — but a probe that raises a transport error aborts
the whole detail block: the row is marked `found=false` with empty difficulty
and image (the per-exercise `try/except` itself never propagates an error to
the caller either way). -/
theorem c8_amended_probe (env : Env) (st : List String) (c n u : String)
    (d : DetailedData) (r : Row) (entry : ExerciseEntry) :
    ((∀ w, (env.probe w).isOk = true) →
      (detailTry env.probe u d r).isOk = true
      ∧ exRow (detailTry env.probe u d r) ColKey.DETAILED_INFO =
        some (Value.bool true)
      ∧ exRow (detailTry env.probe u d r) ColKey.DIFFICULTY =
        some (Value.str (d.difficulty.getD ""))
      ∧ exRow (detailTry env.probe u d r) ColKey.DESCRIPTION =
        some (Value.str (d.description.getD "")))
    ∧ (∀ h, env.detail c n = Except.ok d → d.heroImage = some h → h ≠ "" →
        env.probe ("https://connect.garmin.com" ++ h) = Except.error () →
        (exercisesRow env st c n entry).2 ColKey.DETAILED_INFO =
          some (Value.bool false)
        ∧ (exercisesRow env st c n entry).2 ColKey.DIFFICULTY =
          some (Value.str "")
        ∧ (exercisesRow env st c n entry).2 ColKey.IMAGE =
          some (Value.str "")) := by
  constructor
  · intro hp
    exact ⟨detailTry_isOk env.probe u d r hp,
      exRow_detailTry_found env.probe u d r,
      exRow_detailTry_difficulty env.probe u d r,
      exRow_detailTry_description env.probe u d r⟩
  · intro h hd hh hne0 hp
    have hbe : (h == "") = false := by simp [hne0]
    have ht := detailTry_error_of_probe_raise env.probe
      (detailPageUrl c n) d (baseRow env.translations c n) h hh hbe hp
    rw [exercisesRow_eq_exc env st c n entry d _ hd ht]
    have hkDI : ∀ s, ColKey.DETAILED_INFO ≠ ColKey.MUSCLE s := by
      intro s; simp
    have hkDF : ∀ s, ColKey.DIFFICULTY ≠ ColKey.MUSCLE s := by
      intro s; simp
    have hkIM : ∀ s, ColKey.IMAGE ≠ ColKey.MUSCLE s := by
      intro s; simp
    refine ⟨?_, ?_, ?_⟩
    · rw [trackMuscles_other _ _ _ _ _ hkDI, detailExcept_found]
    · rw [trackMuscles_other _ _ _ _ _ hkDF, detailExcept_difficulty]
    · rw [trackMuscles_other _ _ _ _ _ hkIM, detailExcept_image]

/-- Environment for the C8 witness abort case: detail fetch succeeds with a
hero image and difficulty, the probe raises. -/
def c8wEnv : Env :=
  ⟨[], fun _ _ =>
      Except.ok ⟨some "EASY", none, some "/hero.png", none, none, none⟩,
    fun _ => Except.error ()⟩

/-- Environment for the C8 witness recoverable case: probes return 404
without raising. -/
def c8wEnvOk : Env :=
  ⟨[], fun _ _ =>
      Except.ok ⟨some "EASY", none, some "/hero.png", none, none, none⟩,
    fun _ => Except.ok 404⟩

/-- Witness for C8 (amended): a 404 probe keeps `found=true` with the fetched
difficulty; a raising probe flips the row to `found=false` with empty
difficulty. -/
theorem c8_amended_probe_witness :
    ((detailTry c8wEnvOk.probe "u"
        ⟨some "EASY", none, some "/hero.png", none, none, none⟩
        Row.empty).isOk = true
      ∧ exRow (detailTry c8wEnvOk.probe "u"
          ⟨some "EASY", none, some "/hero.png", none, none, none⟩
          Row.empty) ColKey.DETAILED_INFO = some (Value.bool true)
      ∧ exRow (detailTry c8wEnvOk.probe "u"
          ⟨some "EASY", none, some "/hero.png", none, none, none⟩
          Row.empty) ColKey.DIFFICULTY =
        some (Value.str ((some "EASY").getD ""))
      ∧ exRow (detailTry c8wEnvOk.probe "u"
          ⟨some "EASY", none, some "/hero.png", none, none, none⟩
          Row.empty) ColKey.DESCRIPTION =
        some (Value.str ((none : Option String).getD "")))
    ∧ ((exercisesRow c8wEnv [] "C" "E" ⟨none, none⟩).2 ColKey.DETAILED_INFO =
        some (Value.bool false)
      ∧ (exercisesRow c8wEnv [] "C" "E" ⟨none, none⟩).2 ColKey.DIFFICULTY =
        some (Value.str "")
      ∧ (exercisesRow c8wEnv [] "C" "E" ⟨none, none⟩).2 ColKey.IMAGE =
        some (Value.str "")) :=
  ⟨(c8_amended_probe c8wEnvOk [] "C" "E" "u"
      ⟨some "EASY", none, some "/hero.png", none, none, none⟩
      Row.empty ⟨none, none⟩).1 (fun _ => rfl),
   (c8_amended_probe c8wEnv [] "C" "E" "u"
      ⟨some "EASY", none, some "/hero.png", none, none, none⟩
      Row.empty ⟨none, none⟩).2 "/hero.png" rfl rfl (by decide) rfl⟩

/-- Counterexample to C2 as stated: a run where the Exercises build sees only
muscle `A` (detail fetches fail, catalog fallback) and the Pilates build then
introduces muscle `B`.  `B` is in the run's final muscle universe and is a
column of the Pilates table, but the Exercises table — built and back-filled
before `B` was discovered — has no `MUSCLE_B` column at all. -/
theorem c2_counterexample :
    (runCollector trivEnv
        [("C", [("E0", ⟨some ["A"], none⟩)])]
        [("C", [("P0", ⟨some ["B"], none⟩)])]
        [] [] []).map
      (fun out => (out.muscles.contains "B",
        out.dfExercises.map (fun r => r (ColKey.MUSCLE "B")),
        out.dfPilates.map (fun r => r (ColKey.MUSCLE "B")))) =
    Except.ok (true, [none], [some (Value.nat 1)]) := by
  rfl

/-- C2 amended: the zero back-fill of a category build covers exactly the
muscle universe as of that build's completion: every such muscle is a column
of every row of the emitted table (with value 0 where the row did not set it)
— for all four builders, including the Exercises table after the equipment
columns are added — but tables built earlier in the run do not gain columns
for muscles first observed later. -/
theorem c2_amended_backfill :
    (∀ (st : List String) (rows : List Row) (m : String) (r0 : Row),
      m ∈ st → r0 ∈ rows →
      backfill st r0 (ColKey.MUSCLE m) =
        some ((r0 (ColKey.MUSCLE m)).getD (Value.nat 0))
      ∧ backfill st r0 ∈ finalize st rows)
    ∧ (∀ (env : Env) (catalog : Catalog) (st0 : List String) (m : String)
        (r : Row),
      m ∈ (processSimpleData env catalog st0).1 →
      r ∈ (processSimpleData env catalog st0).2 →
      (r (ColKey.MUSCLE m)).isSome = true)
    ∧ (∀ (env : Env) (catalog : Catalog) (eqDoc : List EquipCategory)
        (st0 eq0 : List String) (m : String) (r : Row),
      m ∈ (process_exercises_data env catalog eqDoc st0 eq0).1 →
      r ∈ (process_exercises_data env catalog eqDoc st0 eq0).2.2 →
      (r (ColKey.MUSCLE m)).isSome = true)
    ∧ (∀ (env : Env) (yoCat piCat : Catalog) (st0 st : List String)
        (rows : List Row) (m : String) (r : Row),
      process_yoga_data env yoCat piCat st0 = Except.ok (st, rows) →
      m ∈ st → r ∈ rows → (r (ColKey.MUSCLE m)).isSome = true) := by
  refine ⟨?_, ?_, ?_, ?_⟩
  · intro st rows m r0 hm hr0
    refine ⟨backfill_get_mem st r0 m hm, ?_⟩
    unfold finalize
    exact List.mem_map_of_mem _ hr0
  · intro env catalog st0 m r hm hr
    simp only [processSimpleData] at hm hr
    unfold finalize at hr
    obtain ⟨r0, hr0, rfl⟩ := List.mem_map.mp hr
    rw [backfill_get_mem _ _ _ hm]
    rfl
  · intro env catalog eqDoc st0 eq0 m r hm hr
    simp only [process_exercises_data, process_equipment_data] at hm hr
    obtain ⟨r1, hr1, rfl⟩ := List.mem_map.mp hr
    rw [applyRowEquip_muscle]
    unfold finalize at hr1
    obtain ⟨r0, hr0, rfl⟩ := List.mem_map.mp hr1
    rw [backfill_get_mem _ _ _ hm]
    rfl
  · intro env yoCat piCat st0 st rows m r hy hm hr
    cases hyl : yogaLoop env (pilates_lookup piCat) yoCat st0 with
    | error e =>
        simp only [process_yoga_data, hyl, Except.map] at hy
        exact Except.noConfusion hy
    | ok q =>
        simp only [process_yoga_data, hyl, Except.map] at hy
        injection hy with h2
        have hst : q.1 = st := congrArg Prod.fst h2
        have hrows : finalize q.1 q.2 = rows := congrArg Prod.snd h2
        rw [← hrows] at hr
        unfold finalize at hr
        obtain ⟨r0, hr0, rfl⟩ := List.mem_map.mp hr
        rw [← hst] at hm
        rw [backfill_get_mem _ _ _ hm]
        rfl

/-- Witness for C2 (amended): back-fill of muscle `ABS` on an empty row, and
its membership in the finalized table. -/
theorem c2_amended_backfill_witness :
    backfill ["ABS"] Row.empty (ColKey.MUSCLE "ABS") =
      some ((Row.empty (ColKey.MUSCLE "ABS")).getD (Value.nat 0))
    ∧ backfill ["ABS"] Row.empty ∈ finalize ["ABS"] [Row.empty] :=
  c2_amended_backfill.1 ["ABS"] [Row.empty] "ABS" Row.empty (by simp)
    (List.mem_singleton.mpr rfl)

/-- The 11-exercise single-category Exercises catalog exposing the committed
debug row cap. -/
def c1Catalog : Catalog :=
  [("C", [("E0", ⟨none, none⟩), ("E1", ⟨none, none⟩), ("E2", ⟨none, none⟩),
    ("E3", ⟨none, none⟩), ("E4", ⟨none, none⟩), ("E5", ⟨none, none⟩),
    ("E6", ⟨none, none⟩), ("E7", ⟨none, none⟩), ("E8", ⟨none, none⟩),
    ("E9", ⟨none, none⟩), ("E10", ⟨none, none⟩)])]

/-- C1: the `# DEBUG: Limit to 10 rows for testing` guard is live code — an
11-exercise catalog produces only 10 rows (the first 10 in catalog iteration
order), so the builder does not produce one row per exercise. -/
theorem c1_cap_truncates_rows :
    (process_exercises_data trivEnv c1Catalog [] [] []).2.2.length = 10
    ∧ (process_exercises_data trivEnv c1Catalog [] [] []).2.2.map
        (fun r => r.getStr ColKey.NAME_GARMIN) =
      ["E0", "E1", "E2", "E3", "E4", "E5", "E6", "E7", "E8", "E9"] := by
  constructor <;> rfl

/-- The Yoga catalog of the C4 failing input: 11 exercises, the 11th
(`Y10`) without a Pilates counterpart. -/
def c4Yoga : Catalog :=
  [("C", [("Y0", ⟨none, none⟩), ("Y1", ⟨none, none⟩), ("Y2", ⟨none, none⟩),
    ("Y3", ⟨none, none⟩), ("Y4", ⟨none, none⟩), ("Y5", ⟨none, none⟩),
    ("Y6", ⟨none, none⟩), ("Y7", ⟨none, none⟩), ("Y8", ⟨none, none⟩),
    ("Y9", ⟨none, none⟩), ("Y10", ⟨none, none⟩)])]

/-- The matching Pilates catalog covering only `Y0`..`Y9`. -/
def c4Pilates : Catalog :=
  [("C", [("Y0", ⟨some ["CORE"], none⟩), ("Y1", ⟨some ["CORE"], none⟩),
    ("Y2", ⟨some ["CORE"], none⟩), ("Y3", ⟨some ["CORE"], none⟩),
    ("Y4", ⟨some ["CORE"], none⟩), ("Y5", ⟨some ["CORE"], none⟩),
    ("Y6", ⟨some ["CORE"], none⟩), ("Y7", ⟨some ["CORE"], none⟩),
    ("Y8", ⟨some ["CORE"], none⟩), ("Y9", ⟨some ["CORE"], none⟩)])]

/-- C4: with the debug cap in place, a Yoga catalog whose 11th exercise has no
Pilates counterpart is *not* rejected: the build returns 10 rows successfully
although `C_Y10` is absent from the Pilates lookup, so the missing-match error
is not raised for every Yoga exercise. -/
theorem c4_cap_skips_unmatched_yoga :
    alistGet (pilates_lookup c4Pilates) "C_Y10" = none
    ∧ (process_yoga_data trivEnv c4Yoga c4Pilates []).map
        (fun p => p.2.length) = Except.ok 10
    ∧ yogaRow trivEnv (pilates_lookup c4Pilates) [] "C" "Y10" =
      Except.error
        "No corresponding exercise found in Pilates data for Yoga exercise: C_Y10" := by
  refine ⟨?_, ?_, ?_⟩ <;> rfl
